import Mathlib

/-!
# A verification development for the diagnostics ("Problem") panel

This file gives a shallow embedding of the line-addressing core of
`lapce-ui/src/problem.rs`: building the filtered, ordered index of
diagnostics (`ProblemContent::items`), sizing (`ProblemContent::layout`),
painting with viewport culling (`ProblemContent::paint`), and resolving a
click to a semantic action (`ProblemContent::mouse_down`).

Conventions of the embedding:
* File paths (`std::path::PathBuf`) are modelled as character sequences,
  ordered lexicographically.
* A Rust `String` message is kept as its sequence of lines, so
  `message.lines().count()` becomes `List.length`.
* The diagnostics collection iterated by `items` is modelled as the
  association list produced by that iteration.
* Rust panics (`expect` / `unwrap` on `None`) are modelled as explicit
  `crash…` results; `log::warn!`/`log::error!` + early return become
  explicit no-op results.
* Pixel-to-line conversion (`floor(y / line_height)`) happens outside the
  traversals; the models take the already-mapped line numbers.
-/

namespace Problem

/-- `lsp_types::DiagnosticSeverity`, the variants relevant to the panel. -/
inductive Severity where
  | error
  | warning
  | information
  | hint
deriving DecidableEq, Repr

/-- `lsp_types::Position`: zero-based line and character. -/
structure Position where
  line : Nat
  character : Nat
deriving DecidableEq, Repr

/-- A file path (`std::path::PathBuf`), as its character sequence. -/
abbrev Path := List Char

/-- Lexicographic comparison of paths, the order `PathBuf: Ord` induces on
the embedded character sequences (used by `sorted_by_key` in `items`). -/
def pathLe : Path → Path → Bool
  | [], _ => true
  | _ :: _, [] => false
  | a :: as, b :: bs => if a < b then true else if b < a then false else pathLe as bs

/-- `lsp_types::DiagnosticRelatedInformation`: the message as its lines, the
target location's URI embedded as the result of `Url::to_file_path`
(`none` when the conversion fails), and the target range start. -/
structure Related where
  message : List String
  toFilePath : Option Path
  start : Position
deriving DecidableEq, Repr

/-- `lsp_types::Diagnostic`, the fields the panel reads: severity, message
(as its lines), `range.start`, and the optional related information. -/
structure Diagnostic where
  severity : Option Severity
  message : List String
  start : Position
  relatedInformation : Option (List Related)
deriving DecidableEq, Repr

/-- `lapce_data::data::EditorDiagnostic`: the raw diagnostic together with
its precomputed flattened line span (the `lines` field). -/
structure EditorDiagnostic where
  lines : Nat
  diagnostic : Diagnostic
deriving DecidableEq, Repr

/-- Modelled from the spec: the value stored in `EditorDiagnostic.lines` is
computed in `lapce-data` (absent from `src/`); per the spec,
`span(diagnostic) = message_line_count + Σ span(related)` with
`span(related) = message_line_count(related) + 1`. -/
def editorDiagnosticLines (d : Diagnostic) : Nat :=
  d.message.length + ((d.relatedInformation.getD []).map (fun r => r.message.length + 1)).sum

/-- `diagnostics.iter().map(|d| d.lines).sum()`, as used by `mouse_down`,
`layout`, and `paint`. -/
def sumLines (ds : List EditorDiagnostic) : Nat :=
  (ds.map (fun d => d.lines)).sum

/-- The severity filter of `items`:
`d.diagnostic.severity == Some(self.severity)`. -/
def matchesSeverity (severity : Severity) (d : EditorDiagnostic) : Bool :=
  d.diagnostic.severity == some severity

/-- The sort key relation of `items` (`sorted_by_key(|(path, _)| path)`). -/
def byPath (x y : Path × List EditorDiagnostic) : Prop :=
  pathLe x.1 y.1 = true

instance : DecidableRel byPath := fun x y => by unfold byPath; infer_instance

/-- `ProblemContent::items`: filter each file's diagnostics down to the
target severity, drop files left with no diagnostics, and sort the
remaining groups by path ascending. -/
def items (diagnostics : List (Path × List EditorDiagnostic)) (severity : Severity) :
    List (Path × List EditorDiagnostic) :=
  List.insertionSort byPath
    (diagnostics.filterMap (fun pd =>
      let matching := pd.2.filter (matchesSeverity severity)
      if matching.isEmpty then none else some (pd.1, matching)))

/-- The line total of a related-information list, as accumulated by the
related scans (`message.lines().count() + 1` per entry). -/
def relInfoLines (rs : List Related) : Nat :=
  (rs.map (fun r => r.message.length + 1)).sum

/-- The collapse state (`data.problem.collapsed`):
`collapsed.get(path).copied().unwrap_or(false)` becomes a total function. -/
abbrev CollapseState := Path → Bool

/-- The span the traversals charge to one file group: `1` when collapsed,
else the sum of its diagnostics' `lines` plus the file-name header. -/
def fileSpan (collapsed : CollapseState) (pd : Path × List EditorDiagnostic) : Nat :=
  if collapsed pd.1 then 1 else sumLines pd.2 + 1

/-- The outcome of `ProblemContent::mouse_down`. `toggle` and `jump` are the
two submitted commands; `warnCollapsed` and `errCursor` are the logged
no-op returns; the `crash…` variants are the process-aborting panics of
the `expect`/`unwrap` calls (file iterator exhausted, diagnostic iterator
exhausted, related-info iterator exhausted, `Url::to_file_path` failed). -/
inductive HitResult where
  | toggle (path : Path)
  | jump (path : Path) (position : Position)
  | warnCollapsed
  | errCursor
  | crashFiles
  | crashDiags
  | crashRelated
  | crashUri
deriving DecidableEq, Repr

/-- The related-information scan of `mouse_down`: skip entries until
`(line_cursor..=(line_cursor + lines)).contains(&click_line)`, then unwrap
the matched entry's `to_file_path`; exhaustion hits
`it.next().expect(...)`. -/
def findRelated (clickLine cursor : Nat) : List Related → HitResult
  | [] => .crashRelated
  | r :: rest =>
    if cursor ≤ clickLine ∧ clickLine ≤ cursor + (r.message.length + 1) then
      match r.toFilePath with
      | some p => .jump p r.start
      | none => .crashUri
    else
      findRelated clickLine (cursor + (r.message.length + 1)) rest

/-- The diagnostic scan of `mouse_down`: consume diagnostics while
`line_cursor + d.lines < click_line`; on the first remaining diagnostic run
the guard `line_cursor > click_line`, the message-row jump test
`is_hot && (line_cursor..line_cursor + msg_lines).contains(&click_line)`,
and otherwise fall through to the related-information scan. -/
def findDiagnostic (isHot : Bool) (clickLine : Nat) (path : Path) (cursor : Nat) :
    List EditorDiagnostic → HitResult
  | [] => .crashDiags
  | d :: rest =>
    if cursor + d.lines < clickLine then
      findDiagnostic isHot clickLine path (cursor + d.lines) rest
    else
      if clickLine < cursor then
        .errCursor
      else if isHot ∧ cursor ≤ clickLine ∧ clickLine < cursor + d.diagnostic.message.length then
        .jump path d.diagnostic.start
      else
        findRelated clickLine (cursor + d.diagnostic.message.length)
          (d.diagnostic.relatedInformation.getD [])

/-- The file scan of `mouse_down`: consume file groups while
`offset + line_cursor <= click_line`; on the first remaining group handle
the header click, the collapsed no-op, and the per-file scans. -/
def findFile (collapsed : CollapseState) (isHot : Bool) (clickLine cursor : Nat) :
    List (Path × List EditorDiagnostic) → HitResult
  | [] => .crashFiles
  | (path, diagnostics) :: rest =>
    if fileSpan collapsed (path, diagnostics) + cursor ≤ clickLine then
      findFile collapsed isHot clickLine (cursor + fileSpan collapsed (path, diagnostics)) rest
    else
      if cursor = clickLine then
        .toggle path
      else if collapsed path then
        .warnCollapsed
      else
        findDiagnostic isHot clickLine path cursor diagnostics

/-- `ProblemContent::mouse_down` on the already-built index, with the click
position already mapped to a line
(`click_line = floor(mouse.pos.y / line_height)`). -/
def mouseDown (collapsed : CollapseState) (isHot : Bool) (clickLine : Nat)
    (items : List (Path × List EditorDiagnostic)) : HitResult :=
  findFile collapsed isHot clickLine 0 items

/-! ## Sizer (`ProblemContent::layout`) -/

/-- The result of `ProblemContent::layout`: the flattened line count, the
stored `content_height`, and the `Size` returned to the layout container.
Pixel quantities use the integral `line_height` from the editor config. -/
structure LayoutResult where
  lines : Nat
  contentHeight : Nat
  width : Nat
  height : Nat
deriving DecidableEq, Repr

/-- `ProblemContent::layout`: sum per-file spans (1 for a collapsed file,
diagnostics' `lines` plus the header otherwise), store
`content_height = line_height * lines`, and return
`Size::new(bc.max().width, content_height.max(bc.max().height))`. -/
def layout (collapsed : CollapseState) (lineHeight bcMaxWidth bcMaxHeight : Nat)
    (items : List (Path × List EditorDiagnostic)) : LayoutResult :=
  let lines := (items.map (fun pd =>
    if collapsed pd.1 then 1 else sumLines pd.2 + 1)).sum
  let contentHeight := lineHeight * lines
  { lines := lines
    contentHeight := contentHeight
    width := bcMaxWidth
    height := max contentHeight bcMaxHeight }

/-! ## Virtualizer (`ProblemContent::paint`) -/

/-- Modelled from the spec: `path_from_url` (`lapce_data::proxy`) is absent
from `src/`; the spec says a malformed URI-to-path conversion failure is
logged as a warning and the related entry is still rendered, so the
conversion is totalized with an empty-path fallback. -/
def path_from_url (toFilePath : Option Path) : Path :=
  toFilePath.getD []

/-- The per-diagnostic recomputation of the related-information line total
in `paint`:
`related_information.as_ref().map(|r| r.iter().map(|r| r.message.lines().count() + 1).sum()).unwrap_or(0)`. -/
def relatedLines (d : Diagnostic) : Nat :=
  (d.relatedInformation.map (fun rs => (rs.map (fun r => r.message.length + 1)).sum)).getD 0

/-- The per-diagnostic span as `paint` recomputes it: message line count
plus the related-information line total. -/
def paintDiagnosticSpan (d : Diagnostic) : Nat :=
  d.message.length + relatedLines d

/-- One abstract draw instruction: which row it is emitted on and which
structural element it renders. Geometry other than the row index and, for
highlight fills, the row count, is abstracted away. -/
inductive DrawOp where
  | fileIcon (line : Nat) (path : Path)
  | fileName (line : Nat) (path : Path)
  | folderText (line : Nat) (folder : Path)
  | diagHighlight (line rows : Nat)
  | severityIcon (line : Nat)
  | msgText (line : Nat) (text : String)
  | relHighlight (line rows : Nat)
  | linkIcon (line : Nat)
  | relHeader (line : Nat) (path : Path) (position : Position)
  | relText (line : Nat) (text : String)
deriving DecidableEq, Repr

/-- Recognizer for the link-icon instruction a related entry's rendering
always starts with. -/
def isLinkIcon : DrawOp → Bool
  | .linkIcon _ => true
  | _ => false

/-- The hover highlight over a diagnostic's message block
(`problem.rs` lines 431-445): emitted when
`ctx.is_hot() && current_line < mouse_line && mouse_line < current_line + 1 + msg_lines`,
filling `msg_lines` rows starting at row `current_line + 1`. -/
def diagHighlightOps (isHot : Bool) (mouseLine cursor msgLines : Nat) : List DrawOp :=
  if isHot = true ∧ cursor < mouseLine ∧ mouseLine < cursor + 1 + msgLines then
    [DrawOp.diagHighlight (cursor + 1) msgLines]
  else
    []

/-- The hover highlight over a related-information entry
(`problem.rs` lines 498-513): emitted when
`ctx.is_hot() && mouse_line >= current_line` and, with
`lines = related.message.lines().count() + 1`,
`mouse_line < current_line + lines`; it fills `lines` rows starting at
`current_line`. -/
def relHighlightOps (isHot : Bool) (mouseLine cursor msgCount : Nat) : List DrawOp :=
  if isHot = true ∧ cursor ≤ mouseLine ∧ mouseLine < cursor + (msgCount + 1) then
    [DrawOp.relHighlight cursor (msgCount + 1)]
  else
    []

/-- The message-text loop of a diagnostic: advance the cursor before each
drawn row. Returns the emitted instructions and the new cursor. -/
def msgTextOps (cursor : Nat) : List String → List DrawOp × Nat
  | [] => ([], cursor)
  | s :: rest =>
    let (ops, c) := msgTextOps (cursor + 1) rest
    (DrawOp.msgText (cursor + 1) s :: ops, c)

/-- The message-text loop of a related-information entry. -/
def relTextOps (cursor : Nat) : List String → List DrawOp × Nat
  | [] => ([], cursor)
  | s :: rest =>
    let (ops, c) := relTextOps (cursor + 1) rest
    (DrawOp.relText (cursor + 1) s :: ops, c)

/-- The related-information loop of `paint`: per entry, advance the cursor
to the entry's header row, emit the hover highlight when applicable, the
link icon, the location header (through `path_from_url`), and the message
rows. -/
def relatedOps (isHot : Bool) (mouseLine cursor : Nat) : List Related → List DrawOp × Nat
  | [] => ([], cursor)
  | r :: rest =>
    let c := cursor + 1
    let hl := relHighlightOps isHot mouseLine c r.message.length
    let (textOps, c2) := relTextOps c r.message
    let (more, c3) := relatedOps isHot mouseLine c2 rest
    (hl ++ DrawOp.linkIcon c :: DrawOp.relHeader c (path_from_url r.toFilePath) r.start
        :: textOps ++ more, c3)

/-- The diagnostics loop of `paint`: stop the whole walk when
`current_line > max` (the `Bool` component records the early `return`);
cull a diagnostic when `current_line + 1 + msg_lines + related_lines < min`
while advancing the cursor by `msg_lines + related_lines`; otherwise emit
highlight, severity icon, message rows, and related entries. -/
def diagnosticOps (isHot : Bool) (mouseLine minLine maxLine cursor : Nat) :
    List EditorDiagnostic → List DrawOp × Nat × Bool
  | [] => ([], cursor, false)
  | d :: rest =>
    if maxLine < cursor then
      ([], cursor, true)
    else
      let msgLines := d.diagnostic.message.length
      let related := relatedLines d.diagnostic
      if cursor + 1 + msgLines + related < minLine then
        diagnosticOps isHot mouseLine minLine maxLine (cursor + msgLines + related) rest
      else
        let hl := diagHighlightOps isHot mouseLine cursor msgLines
        let (mOps, c1) := msgTextOps cursor d.diagnostic.message
        let (rOps, c2) := relatedOps isHot mouseLine c1 (d.diagnostic.relatedInformation.getD [])
        let (more, c3, stopped) := diagnosticOps isHot mouseLine minLine maxLine c2 rest
        (hl ++ DrawOp.severityIcon (cursor + 1) :: mOps ++ rOps ++ more, c3, stopped)

/-- The file-group loop of `paint`: cull an expanded group when
`diagnostics_len + 1 + current_line < min` while advancing the cursor by
its full span; otherwise draw the header (icon and file name), then for a
collapsed group advance by 1, and for an expanded group draw the folder
label (when non-empty) and the diagnostics, aborting everything when the
diagnostics loop hit its `return`. `folderOf` abstracts the
workspace-relative parent-folder computation
(`strip_prefix` / `parent` on `PathBuf`). -/
def fileOps (isHot : Bool) (mouseLine minLine maxLine : Nat) (collapsed : CollapseState)
    (folderOf : Path → Path) (cursor : Nat) :
    List (Path × List EditorDiagnostic) → List DrawOp
  | [] => []
  | (path, diagnostics) :: rest =>
    let isCollapsed := collapsed path
    let diagnosticsLen := sumLines diagnostics
    if isCollapsed = false ∧ diagnosticsLen + 1 + cursor < minLine then
      fileOps isHot mouseLine minLine maxLine collapsed folderOf
        (cursor + (diagnosticsLen + 1)) rest
    else
      let header := [DrawOp.fileIcon cursor path, DrawOp.fileName cursor path]
      if isCollapsed then
        header ++ fileOps isHot mouseLine minLine maxLine collapsed folderOf (cursor + 1) rest
      else
        let folder := folderOf path
        let folderOps := if folder = [] then [] else [DrawOp.folderText cursor folder]
        let (dOps, c, stopped) :=
          diagnosticOps isHot mouseLine minLine maxLine cursor diagnostics
        if stopped then
          header ++ folderOps ++ dOps
        else
          header ++ folderOps ++ dOps
            ++ fileOps isHot mouseLine minLine maxLine collapsed folderOf (c + 1) rest

/-- `ProblemContent::paint` on the already-built index, with the mouse
position and the visible pixel range already mapped to line numbers
(`mouse_line = floor(mouse.y / line_height)`,
`min = floor(rect.y0 / line_height)`,
`max = floor(rect.y1 / line_height) + 2`). -/
def paint (isHot : Bool) (mouseLine minLine maxLine : Nat) (collapsed : CollapseState)
    (folderOf : Path → Path) (items : List (Path × List EditorDiagnostic)) : List DrawOp :=
  fileOps isHot mouseLine minLine maxLine collapsed folderOf 0 items

/-! ## The concrete two-file scenario of spec §8

File `a.rs`: one error whose message has one line and no related
information. File `b.rs`: one error whose message has two lines and one
related-information entry with a one-line message (plus one warning that
the error filter drops). -/

/-- The path `"a.rs"`. -/
def aPath : Path := 'a' :: '.' :: 'r' :: 's' :: []

/-- The path `"b.rs"`. -/
def bPath : Path := 'b' :: '.' :: 'r' :: 's' :: []

/-- The path `"c.rs"`, target of the related-information entry. -/
def cPath : Path := 'c' :: '.' :: 'r' :: 's' :: []

/-- The error of `a.rs`: a one-line message, no related information. -/
def aDiag : EditorDiagnostic :=
  { lines := 1
    diagnostic :=
      { severity := some .error
        message := ["expected struct"]
        start := { line := 10, character := 4 }
        relatedInformation := none } }

/-- The related-information entry of `b.rs`'s error. -/
def bRelated : Related :=
  { message := ["required by this bound"]
    toFilePath := some cPath
    start := { line := 5, character := 1 } }

/-- The error of `b.rs`: a two-line message and one related entry. -/
def bDiag : EditorDiagnostic :=
  { lines := 4
    diagnostic :=
      { severity := some .error
        message := ["mismatched types", "expected u32"]
        start := { line := 7, character := 3 }
        relatedInformation := some [bRelated] } }

/-- A warning on `b.rs`, dropped by the error filter. -/
def bWarn : EditorDiagnostic :=
  { lines := 1
    diagnostic :=
      { severity := some .warning
        message := ["unused variable"]
        start := { line := 2, character := 0 }
        relatedInformation := none } }

/-- The raw diagnostics collection of the scenario, in (unsorted) map
iteration order. -/
def scenarioRaw : List (Path × List EditorDiagnostic) :=
  [(bPath, [bWarn, bDiag]), (aPath, [aDiag])]

/-- The filtered, sorted error index of the scenario. -/
def scenarioItems : List (Path × List EditorDiagnostic) :=
  [(aPath, [aDiag]), (bPath, [bDiag])]

/-- A related-information entry whose URI fails `Url::to_file_path`. -/
def badRelated : Related :=
  { message := ["conflicting implementation"]
    toFilePath := none
    start := { line := 1, character := 1 } }

/-- A diagnostic carrying the unconvertible related entry: a one-line
message, so its rows are the header-sharing message row (line 1 of its
group), the related header (line 2), and the related message (line 3). -/
def badDiag : EditorDiagnostic :=
  { lines := 3
    diagnostic :=
      { severity := some .error
        message := ["duplicate definitions"]
        start := { line := 0, character := 0 }
        relatedInformation := some [badRelated] } }

/-- The all-expanded collapse state. -/
def expandedAll : CollapseState := fun _ => false

/-- The collapse state with exactly `a.rs` collapsed. -/
def aCollapsed : CollapseState := fun p => decide (p = aPath)

/-- A collapse-state update, as the external `ToggleProblem` handler applies
it to the `collapsed` map. -/
def setCollapsed (collapsed : CollapseState) (p : Path) (b : Bool) : CollapseState :=
  fun q => if q = p then b else collapsed q

/-! ## Basic lemmas about the span accumulators -/

theorem sumLines_nil : sumLines [] = 0 := rfl

theorem sumLines_cons (d : EditorDiagnostic) (ds : List EditorDiagnostic) :
    sumLines (d :: ds) = d.lines + sumLines ds := by
  simp [sumLines]

theorem sumLines_append (xs ys : List EditorDiagnostic) :
    sumLines (xs ++ ys) = sumLines xs + sumLines ys := by
  simp [sumLines]

theorem relInfoLines_nil : relInfoLines [] = 0 := rfl

theorem relInfoLines_cons (r : Related) (rs : List Related) :
    relInfoLines (r :: rs) = (r.message.length + 1) + relInfoLines rs := by
  simp [relInfoLines]

theorem relatedLines_eq_relInfoLines (d : Diagnostic) :
    relatedLines d = relInfoLines (d.relatedInformation.getD []) := by
  rcases hd : d.relatedInformation with _ | rs <;>
    simp [relatedLines, relInfoLines, hd]

theorem one_le_fileSpan (collapsed : CollapseState) (pd : Path × List EditorDiagnostic) :
    1 ≤ fileSpan collapsed pd := by
  unfold fileSpan
  split <;> omega

/-! ## Cumulative-consumption lemmas for the three `mouse_down` scans -/

/-- Skipping a block of file groups whose cumulative span stays at or below
the click line advances the cursor by exactly that cumulative span. -/
theorem findFile_skip (collapsed : CollapseState) (isHot : Bool) (clickLine : Nat)
    (fs : List (Path × List EditorDiagnostic)) :
    ∀ (cursor : Nat) (rest : List (Path × List EditorDiagnostic)),
      cursor + (fs.map (fileSpan collapsed)).sum ≤ clickLine →
      findFile collapsed isHot clickLine cursor (fs ++ rest)
        = findFile collapsed isHot clickLine (cursor + (fs.map (fileSpan collapsed)).sum) rest := by
  induction fs with
  | nil => intro cursor rest _; simp
  | cons hd tl ih =>
    intro cursor rest h
    obtain ⟨p, ds⟩ := hd
    simp only [List.map_cons, List.sum_cons] at h ⊢
    rw [List.cons_append]
    simp only [findFile]
    rw [if_pos (by omega : fileSpan collapsed (p, ds) + cursor ≤ clickLine)]
    rw [ih (cursor + fileSpan collapsed (p, ds)) rest (by omega)]
    congr 1
    omega

/-- Skipping a block of diagnostics whose cumulative `lines` keep the cursor
strictly below the click line advances the cursor by that cumulative sum. -/
theorem findDiagnostic_skip (isHot : Bool) (clickLine : Nat) (path : Path)
    (ds : List EditorDiagnostic) :
    ∀ (cursor : Nat) (rest : List EditorDiagnostic),
      cursor + sumLines ds < clickLine →
      findDiagnostic isHot clickLine path cursor (ds ++ rest)
        = findDiagnostic isHot clickLine path (cursor + sumLines ds) rest := by
  induction ds with
  | nil => intro cursor rest _; simp [sumLines_nil]
  | cons d tl ih =>
    intro cursor rest h
    rw [sumLines_cons] at h
    rw [List.cons_append]
    simp only [findDiagnostic]
    rw [if_pos (by omega : cursor + d.lines < clickLine)]
    rw [ih (cursor + d.lines) rest (by omega)]
    congr 1
    rw [sumLines_cons]
    omega

/-- Skipping a block of related-information entries whose cumulative line
total keeps the cursor strictly below the click line advances the cursor by
that total. -/
theorem findRelated_skip (clickLine : Nat) (rs : List Related) :
    ∀ (cursor : Nat) (rest : List Related),
      cursor + relInfoLines rs < clickLine →
      findRelated clickLine cursor (rs ++ rest)
        = findRelated clickLine (cursor + relInfoLines rs) rest := by
  induction rs with
  | nil => intro cursor rest _; simp [relInfoLines_nil]
  | cons r tl ih =>
    intro cursor rest h
    rw [relInfoLines_cons] at h
    rw [List.cons_append]
    simp only [findRelated]
    rw [if_neg (by omega :
      ¬(cursor ≤ clickLine ∧ clickLine ≤ cursor + (r.message.length + 1)))]
    rw [ih (cursor + (r.message.length + 1)) rest (by omega)]
    congr 1
    rw [relInfoLines_cons]
    omega

/-! ## Claim theorems -/

/-- C1: the claim says the hit-test resolves every click to exactly one of
`ToggleCollapse`, `JumpToLocation`, or a logged `NoTarget`, never panicking,
and that iterator exhaustion in particular yields `NoTarget` with an error
log. The code instead panics on exhaustion: with an empty index (no
diagnostics of the target severity) any click runs the file scan off the end
of the iterator and hits `it.next().expect(...)`, and in the §8 two-file
scenario a click at line 7, just below the 7 content lines, does the same. -/
theorem mouse_down_panics_on_exhausted_files :
    mouseDown expandedAll true 0 [] = HitResult.crashFiles
      ∧ mouseDown expandedAll true 7 scenarioItems = HitResult.crashFiles := by
  decide

/-- C3: a click whose mapped line equals a file group's header line (the
cumulative sum of the spans of all preceding groups) toggles that file's
collapse state, for every index, collapse state, and hotness; in the §8
scenario, clicks at lines 0 and 2 toggle `a.rs` and `b.rs`, and with `a.rs`
collapsed a click at line 1 toggles `b.rs`. -/
theorem header_click_toggles :
    (∀ (collapsed : CollapseState) (isHot : Bool)
        (fs₁ fs₂ : List (Path × List EditorDiagnostic)) (p : Path)
        (ds : List EditorDiagnostic),
        mouseDown collapsed isHot ((fs₁.map (fileSpan collapsed)).sum)
          (fs₁ ++ (p, ds) :: fs₂) = HitResult.toggle p)
      ∧ mouseDown expandedAll true 0 scenarioItems = HitResult.toggle aPath
      ∧ mouseDown expandedAll true 2 scenarioItems = HitResult.toggle bPath
      ∧ mouseDown aCollapsed true 1 scenarioItems = HitResult.toggle bPath := by
  refine ⟨?_, by decide, by decide, by decide⟩
  intro collapsed isHot fs₁ fs₂ p ds
  unfold mouseDown
  rw [findFile_skip collapsed isHot _ fs₁ 0 _ (by omega)]
  simp only [Nat.zero_add]
  simp only [findFile]
  have h1 := one_le_fileSpan collapsed (p, ds)
  rw [if_neg (by omega :
    ¬ fileSpan collapsed (p, ds) + (fs₁.map (fileSpan collapsed)).sum
        ≤ (fs₁.map (fileSpan collapsed)).sum)]
  simp

/-- C2 counterexample: in the §8 scenario, line 1 is the single message-line
row of `a.rs`'s diagnostic (its message has one line), yet the hit-test does
not return `JumpToLocation("a.rs", …)`: the message-row range test
`(line_cursor..line_cursor + msg_lines)` misses the last message row, the
scan falls through to the (empty) related-information list, and the code
panics on `it.next().expect(...)`. -/
theorem message_row_click_not_jump_cex :
    mouseDown expandedAll true 1 scenarioItems = HitResult.crashRelated
      ∧ mouseDown expandedAll true 1 scenarioItems
          ≠ HitResult.jump aPath { line := 10, character := 4 } := by
  decide

/-- C2 as amended: for an expanded file group and a hot widget, a click on
any but the last of a diagnostic's message-line rows (rows
`S … S + msg_lines - 1` where `S` is one past the group-relative cumulative
span of the preceding items; the click bound below is
`S ≤ click ≤ S + msg_lines - 2`) returns `JumpToLocation` with the file's
path and the diagnostic's `range.start`; a click on the last message row
falls through to the related-information scan instead. The diagnostic's
`lines` field is assumed coherent with its recomputed span. In the §8
scenario, a click at line 3 yields
`JumpToLocation("b.rs", B.diagnostic.range.start)`. -/
theorem message_row_click_jumps :
    (∀ (collapsed : CollapseState) (fs₁ fs₂ : List (Path × List EditorDiagnostic))
        (p : Path) (ds₁ ds₂ : List EditorDiagnostic) (d : EditorDiagnostic)
        (clickLine : Nat),
        collapsed p = false →
        d.lines = editorDiagnosticLines d.diagnostic →
        (fs₁.map (fileSpan collapsed)).sum + 1 + sumLines ds₁ ≤ clickLine →
        clickLine + 2 ≤ (fs₁.map (fileSpan collapsed)).sum + 1 + sumLines ds₁
            + d.diagnostic.message.length →
        mouseDown collapsed true clickLine (fs₁ ++ (p, ds₁ ++ d :: ds₂) :: fs₂)
          = HitResult.jump p d.diagnostic.start)
      ∧ mouseDown expandedAll true 3 scenarioItems
          = HitResult.jump bPath { line := 7, character := 3 } := by
  refine ⟨?_, by decide⟩
  intro collapsed fs₁ fs₂ p ds₁ ds₂ d clickLine hcol hlines hlo hhi
  have hmsg : d.diagnostic.message.length ≤ d.lines := by
    rw [hlines]; unfold editorDiagnosticLines; omega
  unfold mouseDown
  rw [findFile_skip collapsed true clickLine fs₁ 0 _ (by omega)]
  simp only [Nat.zero_add]
  simp only [findFile]
  have hspan : fileSpan collapsed (p, ds₁ ++ d :: ds₂)
      = sumLines ds₁ + d.lines + sumLines ds₂ + 1 := by
    simp only [fileSpan, hcol, if_false, Bool.false_eq_true, sumLines_append, sumLines_cons]
    omega
  rw [if_neg (by rw [hspan]; omega)]
  rw [if_neg (by omega :
    ¬ (fs₁.map (fileSpan collapsed)).sum = clickLine)]
  simp only [hcol, Bool.false_eq_true, if_false]
  rw [findDiagnostic_skip true clickLine p ds₁ _ _ (by omega)]
  simp only [findDiagnostic]
  rw [if_neg (by omega :
    ¬ (fs₁.map (fileSpan collapsed)).sum + sumLines ds₁ + d.lines < clickLine)]
  rw [if_neg (by omega :
    ¬ clickLine < (fs₁.map (fileSpan collapsed)).sum + sumLines ds₁)]
  rw [if_pos ⟨by trivial, by omega, by omega⟩]

/-- C2 witness: the general jump statement applied at the §8 scenario, the
`b.rs` diagnostic, and click line 3. -/
theorem message_row_click_jumps_witness :
    (expandedAll bPath = false
        ∧ bDiag.lines = editorDiagnosticLines bDiag.diagnostic
        ∧ ([(aPath, [aDiag])].map (fileSpan expandedAll)).sum + 1 + sumLines [] ≤ 3
        ∧ 3 + 2 ≤ ([(aPath, [aDiag])].map (fileSpan expandedAll)).sum + 1 + sumLines []
            + bDiag.diagnostic.message.length)
      ∧ mouseDown expandedAll true 3 ([(aPath, [aDiag])] ++ (bPath, [] ++ bDiag :: []) :: [])
          = HitResult.jump bPath { line := 7, character := 3 } :=
  ⟨⟨by decide, by decide, by decide, by decide⟩,
    message_row_click_jumps.1 expandedAll [(aPath, [aDiag])] [] bPath [] [] bDiag 3
      (by decide) (by decide) (by decide) (by decide)⟩

/-- C4: the per-diagnostic span consumed by layout and `mouse_down` (the
precomputed `lines` field, whose producer is modelled from the spec) equals
the span `paint` recomputes — the message line count plus, per related
entry, its message line count plus one header line — and consequently the
file span used for sizing and hit-testing equals the paint recomputation
summed over the group's diagnostics. -/
theorem lines_field_matches_paint_span :
    (∀ d : EditorDiagnostic,
        d.lines = editorDiagnosticLines d.diagnostic →
        d.lines = paintDiagnosticSpan d.diagnostic)
      ∧ (∀ (collapsed : CollapseState) (p : Path) (ds : List EditorDiagnostic),
          (∀ d ∈ ds, d.lines = editorDiagnosticLines d.diagnostic) →
          fileSpan collapsed (p, ds)
            = if collapsed p then 1
              else (ds.map (fun d => paintDiagnosticSpan d.diagnostic)).sum + 1) := by
  have key : ∀ d : Diagnostic, editorDiagnosticLines d = paintDiagnosticSpan d := by
    intro d
    unfold editorDiagnosticLines paintDiagnosticSpan
    rw [relatedLines_eq_relInfoLines]
    rfl
  refine ⟨fun d h => by rw [h, key], ?_⟩
  intro collapsed p ds h
  unfold fileSpan
  split
  · rfl
  · have : ds.map (fun d => d.lines) = ds.map (fun d => paintDiagnosticSpan d.diagnostic) :=
      List.map_congr_left (fun d hd => by rw [h d hd, key])
    simp only [sumLines, this]

/-- C4 witness: the coherence hypothesis and the conclusion at the `b.rs`
diagnostic of the §8 scenario. -/
theorem lines_field_matches_paint_span_witness :
    bDiag.lines = editorDiagnosticLines bDiag.diagnostic
      ∧ bDiag.lines = paintDiagnosticSpan bDiag.diagnostic :=
  ⟨by decide, lines_field_matches_paint_span.1 bDiag (by decide)⟩

/-- C5 counterexample: in the §8 scenario under a 600-pixel-high box
constraint with 25-pixel lines, the size reported to the layout container is
600 pixels high, not `total_lines × line_height = 7 × 25 = 175`: `layout`
returns `content_height.max(bc.max().height)`. -/
theorem layout_height_not_lines_times_height_cex :
    ¬ (layout expandedAll 25 800 600 scenarioItems).height
        = 25 * (layout expandedAll 25 800 600 scenarioItems).lines := by
  decide

/-- C5 as amended: for every index and collapse state the Sizer's line count
equals the brute-force sum of the per-file spans, and the stored content
height equals `total_lines × line_height`; the height actually reported to
the layout container, however, is the maximum of that content height and
the box constraint's height (the width is the constraint's width). -/
theorem layout_lines_and_height :
    ∀ (collapsed : CollapseState) (lineHeight bcMaxWidth bcMaxHeight : Nat)
      (its : List (Path × List EditorDiagnostic)),
      (layout collapsed lineHeight bcMaxWidth bcMaxHeight its).lines
          = (its.map (fileSpan collapsed)).sum
        ∧ (layout collapsed lineHeight bcMaxWidth bcMaxHeight its).contentHeight
          = lineHeight * (layout collapsed lineHeight bcMaxWidth bcMaxHeight its).lines
        ∧ (layout collapsed lineHeight bcMaxWidth bcMaxHeight its).height
          = max (layout collapsed lineHeight bcMaxWidth bcMaxHeight its).contentHeight
              bcMaxHeight
        ∧ (layout collapsed lineHeight bcMaxWidth bcMaxHeight its).width = bcMaxWidth :=
  fun _ _ _ _ _ => ⟨rfl, rfl, rfl, rfl⟩

/-- C6 counterexample: a collapsed file group whose single line (row 0) lies
strictly above the viewport (`min_line = 5`) still gets its header icon and
file name drawn: the culling test requires `!is_collapsed`. -/
theorem paint_draws_group_outside_viewport_cex :
    paint false 0 5 10 (fun _ => true) (fun _ => []) [(aPath, [aDiag])]
        = [DrawOp.fileIcon 0 aPath, DrawOp.fileName 0 aPath]
      ∧ paint false 0 5 10 (fun _ => true) (fun _ => []) [(aPath, [aDiag])] ≠ [] := by
  decide

/-- C6 as amended: the painter culls — emitting no draw instruction while
advancing its cursor by the group's full span — exactly the expanded file
groups with `diagnostics_len + 1 + current_line < min_line`; a collapsed
file group always draws its header row, even when it lies entirely outside
the visible range; and the whole walk stops once the cursor exceeds
`max_line`, though this is checked only before each diagnostic of an
expanded group (so group headers below the viewport are still drawn when
reached). -/
theorem paint_culling_behavior :
    (∀ (isHot : Bool) (mouseLine minLine maxLine : Nat) (collapsed : CollapseState)
        (folderOf : Path → Path) (cursor : Nat) (p : Path)
        (ds : List EditorDiagnostic) (rest : List (Path × List EditorDiagnostic)),
        collapsed p = false →
        sumLines ds + 1 + cursor < minLine →
        fileOps isHot mouseLine minLine maxLine collapsed folderOf cursor ((p, ds) :: rest)
          = fileOps isHot mouseLine minLine maxLine collapsed folderOf
              (cursor + (sumLines ds + 1)) rest)
      ∧ (∀ (isHot : Bool) (mouseLine minLine maxLine : Nat) (collapsed : CollapseState)
          (folderOf : Path → Path) (cursor : Nat) (p : Path)
          (ds : List EditorDiagnostic) (rest : List (Path × List EditorDiagnostic)),
          collapsed p = true →
          fileOps isHot mouseLine minLine maxLine collapsed folderOf cursor ((p, ds) :: rest)
            = DrawOp.fileIcon cursor p :: DrawOp.fileName cursor p
                :: fileOps isHot mouseLine minLine maxLine collapsed folderOf (cursor + 1) rest)
      ∧ (∀ (isHot : Bool) (mouseLine minLine maxLine cursor : Nat)
          (d : EditorDiagnostic) (rest : List EditorDiagnostic),
          maxLine < cursor →
          diagnosticOps isHot mouseLine minLine maxLine cursor (d :: rest)
            = ([], cursor, true)) := by
  refine ⟨?_, ?_, ?_⟩
  · intro isHot mouseLine minLine maxLine collapsed folderOf cursor p ds rest hcol h
    simp [fileOps, hcol, h]
  · intro isHot mouseLine minLine maxLine collapsed folderOf cursor p ds rest hcol
    simp [fileOps, hcol]
  · intro isHot mouseLine minLine maxLine cursor d rest h
    simp [diagnosticOps, h]

/-- C6 witness: the culling clause applied to an expanded group spanning
rows 0–1 with the viewport starting at row 9: the group is skipped whole
and the remaining (empty) walk starts at row 2. -/
theorem paint_culling_behavior_witness :
    (expandedAll aPath = false ∧ sumLines [aDiag] + 1 + 0 < 9)
      ∧ fileOps false 0 9 20 expandedAll (fun _ => []) 0 [(aPath, [aDiag])]
          = fileOps false 0 9 20 expandedAll (fun _ => []) (0 + (sumLines [aDiag] + 1)) [] :=
  ⟨⟨by decide, by decide⟩,
    paint_culling_behavior.1 false 0 9 20 expandedAll (fun _ => []) 0 aPath [aDiag] []
      (by decide) (by decide)⟩

/-- C10: the two hover-highlight conditions in `paint` use asymmetric
bounds: the diagnostic message-block highlight fires exactly when the widget
is hot and `current_line < mouse_line < current_line + 1 + msg_lines`
(strict below, excluding the row the block starts after), while the
related-entry highlight fires exactly when the widget is hot and
`current_line ≤ mouse_line < current_line + (message_line_count + 1)`
(inclusive below, taking in the related header row). -/
theorem hover_highlight_bounds :
    (∀ (isHot : Bool) (mouseLine cursor msgLines : Nat),
        diagHighlightOps isHot mouseLine cursor msgLines ≠ []
          ↔ (isHot = true ∧ cursor < mouseLine ∧ mouseLine < cursor + 1 + msgLines))
      ∧ (∀ (isHot : Bool) (mouseLine cursor msgCount : Nat),
          relHighlightOps isHot mouseLine cursor msgCount ≠ []
            ↔ (isHot = true ∧ cursor ≤ mouseLine ∧ mouseLine < cursor + (msgCount + 1))) := by
  constructor
  · intro isHot mouseLine cursor msgLines
    unfold diagHighlightOps
    split
    · simpa
    · rename_i hcond
      simp
      intro h1 h2
      rcases not_and_or.mp hcond with h | h
      · exact absurd h1 h
      · rcases not_and_or.mp h with h' | h'
        · omega
        · omega
  · intro isHot mouseLine cursor msgCount
    unfold relHighlightOps
    split
    · simpa
    · rename_i hcond
      simp
      intro h1 h2
      rcases not_and_or.mp hcond with h | h
      · exact absurd h1 h
      · rcases not_and_or.mp h with h' | h'
        · omega
        · omega

/-- C10 witness: both highlight conditions evaluated at concrete bounds
(hot, cursor 4, mouse at line 4 with a two-line message): the diagnostic
block, which excludes its starting row, does not fire, while the related
block, which includes its header row, does. -/
theorem hover_highlight_bounds_witness :
    ¬ diagHighlightOps true 4 4 2 ≠ []
      ∧ relHighlightOps true 4 4 2 ≠ [] :=
  ⟨fun h => by
      have := (hover_highlight_bounds.1 true 4 4 2).mp h
      omega,
    (hover_highlight_bounds.2 true 4 4 2).mpr ⟨rfl, by omega, by omega⟩⟩

/-! ## Rendering helpers for the related-information entries -/

theorem countP_isLinkIcon_relTextOps :
    ∀ (l : List String) (cursor : Nat), (relTextOps cursor l).1.countP isLinkIcon = 0 := by
  intro l
  induction l with
  | nil => intro cursor; rfl
  | cons s rest ih =>
    intro cursor
    rcases h : relTextOps (cursor + 1) rest with ⟨ops, c⟩
    have hih := ih (cursor + 1)
    rw [h] at hih
    simp only [relTextOps, h]
    simpa [List.countP_cons, isLinkIcon] using hih

theorem countP_isLinkIcon_relHighlightOps (isHot : Bool) (mouseLine cursor msgCount : Nat) :
    (relHighlightOps isHot mouseLine cursor msgCount).countP isLinkIcon = 0 := by
  unfold relHighlightOps
  split <;> simp [isLinkIcon]

/-- Every related-information entry in the list contributes exactly one link
icon to the painter's output, regardless of whether its URI converts to a
path. -/
theorem relatedOps_renders_every_entry :
    ∀ (rs : List Related) (isHot : Bool) (mouseLine cursor : Nat),
      ((relatedOps isHot mouseLine cursor rs).1.countP isLinkIcon) = rs.length := by
  intro rs
  induction rs with
  | nil => intro isHot m cursor; rfl
  | cons r rest ih =>
    intro isHot m cursor
    rcases hT : relTextOps (cursor + 1) r.message with ⟨tOps, c2⟩
    rcases hR : relatedOps isHot m c2 rest with ⟨more, c3⟩
    have htext := countP_isLinkIcon_relTextOps r.message (cursor + 1)
    rw [hT] at htext
    have hrec := ih isHot m c2
    rw [hR] at hrec
    simp only [relatedOps, hT, hR]
    simp [List.countP_append, List.countP_cons, isLinkIcon, htext, hrec,
      countP_isLinkIcon_relHighlightOps]

/-- C7 counterexample: a related entry whose URI fails conversion does not
have its failure absorbed by the hit-test: clicking its header row (line 2
of the group) hits `to_file_path().unwrap()` and the process aborts, where
the claim requires a logged no-jump skip. -/
theorem related_uri_click_aborts_cex :
    mouseDown expandedAll true 2 [(aPath, [badDiag])] = HitResult.crashUri := by
  decide

/-- C7 as amended: a related-information entry whose URI cannot be converted
to a file path is still rendered by the painter (which displays it through
the spec-modelled, warning-logging `path_from_url` fallback and emits its
link icon like any other entry), but a click that the related scan resolves
to such an entry panics on unwrapping the conversion result instead of
being skipped. -/
theorem related_uri_failure_behavior :
    (∀ (clickLine cursor : Nat) (rs₁ : List Related) (r : Related) (rs₂ : List Related),
        cursor + relInfoLines rs₁ < clickLine →
        clickLine ≤ cursor + relInfoLines rs₁ + (r.message.length + 1) →
        r.toFilePath = none →
        findRelated clickLine cursor (rs₁ ++ r :: rs₂) = HitResult.crashUri)
      ∧ (∀ (isHot : Bool) (mouseLine cursor : Nat) (rs : List Related),
          ((relatedOps isHot mouseLine cursor rs).1.countP isLinkIcon) = rs.length) := by
  constructor
  · intro clickLine cursor rs₁ r rs₂ hlo hhi hnone
    rw [findRelated_skip clickLine rs₁ cursor _ (by omega)]
    simp only [findRelated]
    rw [if_pos ⟨by omega, by omega⟩]
    simp [hnone]
  · exact fun isHot m cursor rs => relatedOps_renders_every_entry rs isHot m cursor

/-- C7 witness: the abort clause applied to the unconvertible related entry,
clicked on its header row. -/
theorem related_uri_failure_behavior_witness :
    (1 + relInfoLines [] < 2
        ∧ 2 ≤ 1 + relInfoLines [] + (badRelated.message.length + 1)
        ∧ badRelated.toFilePath = none)
      ∧ findRelated 2 1 ([] ++ badRelated :: []) = HitResult.crashUri :=
  ⟨⟨by decide, by decide, by decide⟩,
    related_uri_failure_behavior.1 2 1 [] badRelated [] (by decide) (by decide) (by decide)⟩

/-! ## The lexicographic path order -/

theorem pathLe_total : ∀ a b : Path, pathLe a b = true ∨ pathLe b a = true := by
  intro a
  induction a with
  | nil => intro b; left; cases b <;> rfl
  | cons x xs ih =>
    intro b
    cases b with
    | nil => right; rfl
    | cons y ys =>
      rcases lt_trichotomy x y with h | h | h
      · left; simp [pathLe, h]
      · subst h
        rcases ih ys with h' | h'
        · left; simp [pathLe, lt_irrefl, h']
        · right; simp [pathLe, lt_irrefl, h']
      · right; simp [pathLe, h]

theorem pathLe_trans :
    ∀ a b c : Path, pathLe a b = true → pathLe b c = true → pathLe a c = true := by
  intro a
  induction a with
  | nil => intro b c _ _; cases c <;> rfl
  | cons x xs ih =>
    intro b c hab hbc
    cases b with
    | nil => simp [pathLe] at hab
    | cons y ys =>
      cases c with
      | nil => simp [pathLe] at hbc
      | cons z zs =>
        by_cases h1 : x < y
        · by_cases h2 : y < z
          · simp [pathLe, lt_trans h1 h2]
          · by_cases h3 : z < y
            · simp [pathLe, h2, h3] at hbc
            · have hyz : y = z := le_antisymm (not_lt.mp h3) (not_lt.mp h2)
              subst hyz
              simp [pathLe, h1]
        · by_cases h3 : y < x
          · simp [pathLe, h1, h3] at hab
          · have hxy : x = y := le_antisymm (not_lt.mp h3) (not_lt.mp h1)
            subst hxy
            simp only [pathLe, lt_irrefl, if_false] at hab
            by_cases h2 : x < z
            · simp [pathLe, h2]
            · by_cases h4 : z < x
              · simp [pathLe, h2, h4] at hbc
              · have hxz : x = z := le_antisymm (not_lt.mp h4) (not_lt.mp h2)
                subst hxz
                simp only [pathLe, lt_irrefl, if_false] at hbc ⊢
                exact ih ys zs hab hbc

/-- C8: for every raw diagnostics collection and target severity, the built
index is empty on empty input; every group it contains is non-empty and is
exactly the source-order severity filter of that file's diagnostics; a file
appears iff it has at least one diagnostic of the target severity; and the
groups are sorted by path ascending. -/
theorem items_builds_index (ds : List (Path × List EditorDiagnostic)) (sev : Severity) :
    items [] sev = []
      ∧ (∀ (p : Path) (g : List EditorDiagnostic), (p, g) ∈ items ds sev →
          g ≠ [] ∧ ∃ orig, (p, orig) ∈ ds ∧ g = orig.filter (matchesSeverity sev))
      ∧ (∀ p : Path, (∃ g, (p, g) ∈ items ds sev)
          ↔ ∃ e ∈ ds, e.1 = p ∧ ∃ d ∈ e.2, matchesSeverity sev d = true)
      ∧ List.Sorted byPath (items ds sev) := by
  haveI : IsTotal (Path × List EditorDiagnostic) byPath :=
    ⟨fun a b => pathLe_total a.1 b.1⟩
  haveI : IsTrans (Path × List EditorDiagnostic) byPath :=
    ⟨fun a b c => pathLe_trans a.1 b.1 c.1⟩
  have hitems : ∀ l : List (Path × List EditorDiagnostic), items l sev
      = List.insertionSort byPath (l.filterMap (fun pd =>
          if (pd.2.filter (matchesSeverity sev)).isEmpty then none
          else some (pd.1, pd.2.filter (matchesSeverity sev)))) := fun _ => rfl
  have hmem : ∀ x, x ∈ items ds sev ↔ x ∈ ds.filterMap (fun pd =>
      if (pd.2.filter (matchesSeverity sev)).isEmpty then none
      else some (pd.1, pd.2.filter (matchesSeverity sev))) := by
    intro x
    rw [hitems]
    exact (List.perm_insertionSort byPath _).mem_iff
  refine ⟨rfl, ?_, ?_, ?_⟩
  · intro p g hpg
    obtain ⟨⟨q, orig⟩, he, hfe⟩ := List.mem_filterMap.mp ((hmem (p, g)).mp hpg)
    by_cases hempty : (orig.filter (matchesSeverity sev)).isEmpty
    · simp [hempty] at hfe
    · rw [if_neg hempty] at hfe
      simp only [Option.some.injEq, Prod.mk.injEq] at hfe
      obtain ⟨hq, hg⟩ := hfe
      refine ⟨?_, orig, hq ▸ he, hg.symm⟩
      intro hnil
      exact hempty (by simp [hg, hnil])
  · intro p
    constructor
    · rintro ⟨g, hpg⟩
      obtain ⟨⟨q, orig⟩, he, hfe⟩ := List.mem_filterMap.mp ((hmem (p, g)).mp hpg)
      by_cases hempty : (orig.filter (matchesSeverity sev)).isEmpty
      · simp [hempty] at hfe
      · rw [if_neg hempty] at hfe
        simp only [Option.some.injEq, Prod.mk.injEq] at hfe
        obtain ⟨hq, hg⟩ := hfe
        have hne : orig.filter (matchesSeverity sev) ≠ [] := by
          intro h; rw [h] at hempty; simp at hempty
        obtain ⟨d, hd⟩ := List.exists_mem_of_ne_nil _ hne
        obtain ⟨hdo, hdm⟩ := List.mem_filter.mp hd
        exact ⟨(q, orig), he, hq, d, hdo, hdm⟩
    · rintro ⟨⟨q, orig⟩, he, hqp, d, hd, hdm⟩
      have hne : (orig.filter (matchesSeverity sev)) ≠ [] :=
        List.ne_nil_of_mem (List.mem_filter.mpr ⟨hd, hdm⟩)
      have hempty : (orig.filter (matchesSeverity sev)).isEmpty = false := by
        rcases hf : orig.filter (matchesSeverity sev) with _ | _
        · exact absurd hf hne
        · rfl
      refine ⟨orig.filter (matchesSeverity sev), (hmem _).mpr ?_⟩
      exact List.mem_filterMap.mpr ⟨(q, orig), he, by simp [hempty]; exact hqp⟩
  · rw [hitems]
    exact List.sorted_insertionSort byPath _

/-- C8 witness: in the §8 scenario's raw collection, `b.rs` has an error
diagnostic, so the error index contains a group for `b.rs`. -/
theorem items_builds_index_witness :
    ((bPath, [bWarn, bDiag]) ∈ scenarioRaw
        ∧ bDiag ∈ [bWarn, bDiag] ∧ matchesSeverity .error bDiag = true)
      ∧ (∃ g, (bPath, g) ∈ items scenarioRaw .error) :=
  ⟨⟨by decide, by decide, by decide⟩,
    ((items_builds_index scenarioRaw .error).2.2.1 bPath).mpr
      ⟨(bPath, [bWarn, bDiag]), by decide, rfl, bDiag, by decide, by decide⟩⟩

/-- Collapsing one file (with unique paths in the index) turns its span
contribution into `1` and leaves every other contribution unchanged. -/
theorem sum_fileSpan_setCollapsed_true (collapsed : CollapseState) (p : Path)
    (g : List EditorDiagnostic) :
    ∀ its : List (Path × List EditorDiagnostic),
      (its.map Prod.fst).Nodup → (p, g) ∈ its → collapsed p = false →
      (its.map (fileSpan (setCollapsed collapsed p true))).sum + (sumLines g + 1)
        = (its.map (fileSpan collapsed)).sum + 1 := by
  intro its
  induction its with
  | nil => intro _ hmem _; exact absurd hmem (List.not_mem_nil _)
  | cons e rest ih =>
    intro hnd hmem hcol
    simp only [List.map_cons, List.nodup_cons] at hnd
    obtain ⟨hnotin, hnd'⟩ := hnd
    rcases List.mem_cons.mp hmem with hmem | hmem
    · have he : e = (p, g) := hmem.symm
      subst he
      have htail : rest.map (fileSpan (setCollapsed collapsed p true))
          = rest.map (fileSpan collapsed) := by
        apply List.map_congr_left
        intro x hx
        have hne : x.1 ≠ p := by
          intro h
          exact hnotin (List.mem_map.mpr ⟨x, hx, h⟩)
        simp [fileSpan, setCollapsed, hne]
      simp only [List.map_cons, List.sum_cons, htail]
      have h1 : fileSpan (setCollapsed collapsed p true) (p, g) = 1 := by
        simp [fileSpan, setCollapsed]
      have h2 : fileSpan collapsed (p, g) = sumLines g + 1 := by
        simp [fileSpan, hcol]
      rw [h1, h2]
      omega
    · have hp_in : p ∈ rest.map Prod.fst := List.mem_map_of_mem Prod.fst hmem
      have hne : e.1 ≠ p := fun h => hnotin (h ▸ hp_in)
      have hhead : fileSpan (setCollapsed collapsed p true) e = fileSpan collapsed e := by
        simp [fileSpan, setCollapsed, hne]
      simp only [List.map_cons, List.sum_cons, hhead]
      have := ih hnd' hmem hcol
      omega

/-- C9: with unique paths in the index and `p` initially expanded,
collapsing `p` changes the Sizer's total by replacing that file's
contribution (`sumLines g + 1`) with exactly `1`, every other file's span
is unchanged, and clearing the flag again restores the original total. -/
theorem collapse_replaces_contribution :
    ∀ (its : List (Path × List EditorDiagnostic)) (collapsed : CollapseState)
      (p : Path) (g : List EditorDiagnostic) (lineHeight bcMaxWidth bcMaxHeight : Nat),
      (its.map Prod.fst).Nodup →
      (p, g) ∈ its →
      collapsed p = false →
      ((layout (setCollapsed collapsed p true) lineHeight bcMaxWidth bcMaxHeight its).lines
            + (sumLines g + 1)
          = (layout collapsed lineHeight bcMaxWidth bcMaxHeight its).lines + 1)
        ∧ (∀ e ∈ its, e.1 ≠ p →
            fileSpan (setCollapsed collapsed p true) e = fileSpan collapsed e)
        ∧ (layout (setCollapsed (setCollapsed collapsed p true) p false)
              lineHeight bcMaxWidth bcMaxHeight its).lines
          = (layout collapsed lineHeight bcMaxWidth bcMaxHeight its).lines := by
  intro its collapsed p g lineHeight bcMaxWidth bcMaxHeight hnd hmem hcol
  have hL : ∀ c : CollapseState,
      (layout c lineHeight bcMaxWidth bcMaxHeight its).lines
        = (its.map (fileSpan c)).sum := fun _ => rfl
  refine ⟨?_, ?_, ?_⟩
  · rw [hL, hL]
    exact sum_fileSpan_setCollapsed_true collapsed p g its hnd hmem hcol
  · intro e _ hne
    simp [fileSpan, setCollapsed, hne]
  · rw [hL, hL]
    apply congrArg
    apply List.map_congr_left
    intro e _
    by_cases h : e.1 = p
    · simp [fileSpan, setCollapsed, h, hcol]
    · simp [fileSpan, setCollapsed, h]

/-- C9 witness: collapsing `a.rs` in the §8 scenario drops the total from 7
to 6 (its contribution 2 becomes 1). -/
theorem collapse_replaces_contribution_witness :
    ((scenarioItems.map Prod.fst).Nodup
        ∧ (aPath, [aDiag]) ∈ scenarioItems
        ∧ expandedAll aPath = false)
      ∧ (layout (setCollapsed expandedAll aPath true) 25 800 600 scenarioItems).lines
            + (sumLines [aDiag] + 1)
          = (layout expandedAll 25 800 600 scenarioItems).lines + 1 :=
  ⟨⟨by decide, by decide, by decide⟩,
    (collapse_replaces_contribution scenarioItems expandedAll aPath [aDiag] 25 800 600
      (by decide) (by decide) (by decide)).1⟩

end Problem

